import Mathlib

/-!
Shallow embedding of the Connect CA leaf-certificate cache type found in
the cachetype section of src/agent/retry_join.go: the renewal-window
policy calculateSoftExpiry, the leaf generator generateNewLeaf, the Fetch
wait loop, the roots-watcher fan-out (rootWatcher), and the
subscriber/watcher lifecycle (fetchStart / fetchDone / ensureRootWatcher).

Modelling conventions.

* Go time.Time instants and time.Duration values are integers counting
  nanoseconds (Int); the Go zero time.Time (time.Time.IsZero) is the
  integer 0.
* Go computes time.Duration(float64(d) * 0.6); this is modelled as the
  exact rational product truncated toward zero, 6 * d / 10 (the operand
  is positive on every path where the expression is evaluated, so Int
  euclidean division agrees with Go's truncation toward zero).
* External effects (the roots-cache read, private-key generation, CSR
  construction, the ConnectCA.Sign RPC, certificate parsing) are supplied
  as Except-valued oracle fields of the ConnectCALeaf structure, playing
  the roles of the Go fields Cache and RPC and of the connect package
  helpers.
* Randomness (lib.RandomStagger) is supplied as explicit inputs: the
  stagger parameter of Fetch for the soft-expiry jitter, and a per-event
  delay for the CA-change jitter.  Theorems that depend on the range of a
  draw take the range RandomStagger guarantees as a hypothesis.
* Real time inside Fetch is modelled by an event trace: each roots-change
  notification carries the instant at which the select receives it and
  the roots-cache read observed at that point; a Go timer armed at
  instant s for duration d fires at instant s + d.  Each iteration of the
  Go wait loop re-creates its timer channels with time.After, which the
  model mirrors by arming the timeout timer from the iteration start.
-/

/-- One nanosecond is the unit; one second is 1e9 nanoseconds, as in Go
time.Second. -/
def Second : Int := 1000000000

/-- Go time.Minute in nanoseconds. -/
def Minute : Int := 60 * Second

/-- The jitter applied after noticing the CA changed before requesting a
new cert (const caChangeInitialJitter = 20 * time.Second). -/
def caChangeInitialJitter : Int := 20 * Second

/-- structs.IssuedCert, restricted to the fields the cachetype code
reads: the certificate and key PEMs, the validity window and the Raft
ModifyIndex. -/
structure IssuedCert where
  CertPEM : String
  PrivateKeyPEM : String
  ValidAfter : Int
  ValidBefore : Int
  ModifyIndex : Nat
deriving DecidableEq, Repr

/-- structs.CARoot, restricted to the fields read by activeRootHasKey. -/
structure CARoot where
  ID : String
  SigningKeyID : String
  Active : Bool
deriving DecidableEq, Repr

/-- structs.IndexedCARoots, restricted to the fields the cachetype code
reads. -/
structure IndexedCARoots where
  ActiveRootID : String
  TrustDomain : String
  Roots : List CARoot
deriving DecidableEq, Repr

/-- fetchState: the per-entry metadata stored with each cert in the
cache.  forceExpireAfter is a time.Time whose zero value (IsZero) is the
integer 0. -/
structure fetchState where
  authorityKeyID : String
  forceExpireAfter : Int
deriving DecidableEq, Repr

/-- calculateSoftExpiry: the renewal-window policy.  Mirrors the source
line by line; the two Go expressions
time.Duration(float64(certLifetime) * 0.6) and
time.Duration(float64(certLifetime) * 0.9) are modelled as the exact
products truncated toward zero (6 and 9 times the lifetime divided by
10).  now.After(x) is the strict comparison x < now. -/
def calculateSoftExpiry (now : Int) (cert : IssuedCert) : Int × Int :=
  let certLifetime := cert.ValidBefore - cert.ValidAfter
  if certLifetime < 10 * Minute then
    (now, now)
  else
    let softRenewTime := cert.ValidAfter + 6 * certLifetime / 10
    let hardRenewTime := cert.ValidAfter + 9 * certLifetime / 10
    if hardRenewTime < now then
      (now, now)
    else if softRenewTime < now then
      (now, hardRenewTime)
    else
      (softRenewTime, hardRenewTime)

/-- The loop body of activeRootHasKey: scan the roots for the first one
marked Active; on finding it, report whether its SigningKeyID is the
queried key (the Go code returns right there, so later roots are never
inspected); report false if no root is Active. -/
def activeRootScan (currentSigningKeyID : String) : List CARoot → Bool
  | [] => false
  | ca :: rest =>
    if ca.Active then decide (ca.SigningKeyID = currentSigningKeyID)
    else activeRootScan currentSigningKeyID rest

/-- activeRootHasKey from the source. -/
def activeRootHasKey (roots : IndexedCARoots) (currentSigningKeyID : String) : Bool :=
  activeRootScan currentSigningKeyID roots.Roots

/-- ConnectCALeafRequest: the cache.Request implementation for this cache
type. -/
structure ConnectCALeafRequest where
  Token : String
  Datacenter : String
  Service : String
  MinQueryIndex : Nat
deriving DecidableEq, Repr

/-- connect.SpiffeIDService as built in generateNewLeaf. -/
structure SpiffeIDService where
  Host : String
  Datacenter : String
  Namespace : String
  Service : String
deriving DecidableEq, Repr

/-- structs.CASignRequest, restricted to the fields generateNewLeaf
fills in (the write token, the datacenter and the CSR). -/
structure CASignRequest where
  Token : String
  Datacenter : String
  CSR : String
deriving DecidableEq, Repr

/-- The ConnectCALeaf cache type.  testSetCAChangeInitialJitter mirrors
the Go field of the same name; the remaining fields are the oracles for
the external collaborators: rootsFromCache models the method of the same
name (a read of c.Cache for ConnectCARootName including the type
assertion), generatePrivateKey and createCSR model the connect package
helpers, signRPC models c.RPC.RPC with method ConnectCA.Sign, and
parseCertAuthorityKeyIDHex models
connect.HexString(connect.ParseCert(pem).AuthorityKeyId). -/
structure ConnectCALeaf where
  testSetCAChangeInitialJitter : Int
  rootsFromCache : Except String IndexedCARoots
  generatePrivateKey : Except String (String × String)
  createCSR : SpiffeIDService → String → Except String String
  signRPC : CASignRequest → Except String IssuedCert
  parseCertAuthorityKeyIDHex : String → Except String String

/-- The jitter bound chosen in the roots-change branch of Fetch: the
test override when it is positive, the caChangeInitialJitter constant
otherwise (lines computing the local variable jitter). -/
def effectiveJitter (c : ConnectCALeaf) : Int :=
  if 0 < c.testSetCAChangeInitialJitter then c.testSetCAChangeInitialJitter
  else caChangeInitialJitter

/-- cache.FetchResult restricted to the fields this cache type sets.
Value and State are interface values in Go; none models the nil
interface of the zero FetchResult. -/
structure FetchResult where
  Value : Option IssuedCert
  State : Option fetchState
  Index : Nat
deriving DecidableEq, Repr

/-- The zero cache.FetchResult (var result cache.FetchResult). -/
def emptyFetchResult : FetchResult :=
  { Value := none, State := none, Index := 0 }

/-- The pair a Go (cache.FetchResult, error) return carries, together
with the final contents of the fetchState object that the call mutated
through its pointer (visible to the caller even on error returns). -/
structure GenResult where
  result : FetchResult
  err : Option String
  finalState : fetchState
deriving DecidableEq, Repr

/-- The service identity generateNewLeaf constructs from the trust
domain and the request. -/
def serviceIDFor (roots : IndexedCARoots) (req : ConnectCALeafRequest) : SpiffeIDService :=
  { Host := roots.TrustDomain, Datacenter := req.Datacenter,
    Namespace := "default", Service := req.Service }

/-- generateNewLeaf: mint a key, build a CSR, have it signed and parse
the result.  Mirrors the source ordering exactly; in particular
state.forceExpireAfter is reset to the zero time after the signing RPC
succeeds and before the certificate is parsed. -/
def generateNewLeaf (c : ConnectCALeaf) (req : ConnectCALeafRequest)
    (state : fetchState) : GenResult :=
  match c.rootsFromCache with
  | .error e => { result := emptyFetchResult, err := some e, finalState := state }
  | .ok roots =>
    if roots.TrustDomain = "" then
      { result := emptyFetchResult, err := some "cluster has no CA bootstrapped yet",
        finalState := state }
    else
      match c.generatePrivateKey with
      | .error e => { result := emptyFetchResult, err := some e, finalState := state }
      | .ok (pk, pkPEM) =>
        match c.createCSR (serviceIDFor roots req) pk with
        | .error e => { result := emptyFetchResult, err := some e, finalState := state }
        | .ok csr =>
          match c.signRPC { Token := req.Token, Datacenter := req.Datacenter, CSR := csr } with
          | .error e => { result := emptyFetchResult, err := some e, finalState := state }
          | .ok reply0 =>
            let reply := { reply0 with PrivateKeyPEM := pkPEM }
            let state1 := { state with forceExpireAfter := 0 }
            match c.parseCertAuthorityKeyIDHex reply.CertPEM with
            | .error e => { result := emptyFetchResult, err := some e, finalState := state1 }
            | .ok keyID =>
              let state2 := { state1 with authorityKeyID := keyID }
              { result := { Value := some reply, State := some state2, Index := reply.ModifyIndex },
                err := none, finalState := state2 }

/-- Derived predicate on the oracles (not a piece of the source): true
exactly when a generateNewLeaf run reaches the signing RPC and that RPC
succeeds, i.e. when the run executes the assignment that clears
state.forceExpireAfter. -/
def reachedSignSuccess (c : ConnectCALeaf) (req : ConnectCALeafRequest) : Bool :=
  match c.rootsFromCache with
  | .error _ => false
  | .ok roots =>
    if roots.TrustDomain = "" then false
    else
      match c.generatePrivateKey with
      | .error _ => false
      | .ok (pk, _pkPEM) =>
        match c.createCSR (serviceIDFor roots req) pk with
        | .error _ => false
        | .ok csr =>
          match c.signRPC { Token := req.Token, Datacenter := req.Datacenter, CSR := csr } with
          | .error _ => false
          | .ok _ => true

deriving instance DecidableEq for Except

/-- One roots-change notification delivered to a Fetch call: the instant
the select receives it, the roots-cache read rootsFromCache performs at
that point, and the value lib.RandomStagger(jitter) draws if the branch
reaches it. -/
structure RootEvent where
  time : Int
  rootsResult : Except String IndexedCARoots
  delay : Int
deriving DecidableEq, Repr

/-- What a Fetch call returns: the (cache.FetchResult, error) pair, the
instant at which the call returns, and the final contents of the
fetchState object it mutated. -/
structure FetchOutcome where
  result : FetchResult
  err : Option String
  retTime : Int
  finalState : fetchState
deriving DecidableEq, Repr

/-- Wrap a generateNewLeaf run into the outcome of the Fetch call that
invoked it at instant t. -/
def mkGenerateOutcome (c : ConnectCALeaf) (req : ConnectCALeafRequest)
    (state : fetchState) (t : Int) : FetchOutcome :=
  let g := generateNewLeaf c req state
  { result := g.result, err := g.err, retTime := t, finalState := g.finalState }

/-- The Fetch wait loop (the for/select at the bottom of Fetch).  Each
iteration arms a fresh timeout timer with time.After(opts.Timeout), so
that timer fires at iterStart + timeout where iterStart is the instant
the iteration entered the select; the expiry timer is armed with
time.After(expiresAt.Sub(time.Now())) and therefore fires at the
absolute instant expiresAt.  A pending notification is received if it
arrives strictly before both timers fire (ties are resolved in favour of
the timers; theorems that depend on ordering keep the instants apart).
On a notification carrying a roots read error, Fetch returns the
pre-seeded result together with the error.  On a read whose active root
still has the state's authorityKeyID the loop just continues.  Otherwise
the CA changed: forceExpireAfter is set to the notification instant plus
the drawn delay, expiresAt is lowered to it when it is earlier, and the
loop continues. -/
def fetchLoop (c : ConnectCALeaf) (req : ConnectCALeafRequest) (timeout : Int)
    (existing : IssuedCert) :
    Int → Int → fetchState → List RootEvent → FetchOutcome
  | iterStart, expiresAt, state, [] =>
    if iterStart + timeout ≤ expiresAt then
      { result := { Value := some existing, State := some state, Index := existing.ModifyIndex },
        err := none, retTime := iterStart + timeout, finalState := state }
    else
      mkGenerateOutcome c req state expiresAt
  | iterStart, expiresAt, state, e :: rest =>
    if e.time < iterStart + timeout ∧ e.time < expiresAt then
      match e.rootsResult with
      | .error msg =>
        { result := { Value := some existing, State := some state, Index := existing.ModifyIndex },
          err := some msg, retTime := e.time, finalState := state }
      | .ok roots =>
        if activeRootHasKey roots state.authorityKeyID then
          fetchLoop c req timeout existing e.time expiresAt state rest
        else
          let fea := e.time + e.delay
          let state1 := { state with forceExpireAfter := fea }
          let expiresAt1 := if fea < expiresAt then fea else expiresAt
          fetchLoop c req timeout existing e.time expiresAt1 state1 rest
    else if iterStart + timeout ≤ expiresAt then
      { result := { Value := some existing, State := some state, Index := existing.ModifyIndex },
        err := none, retTime := iterStart + timeout, finalState := state }
    else
      mkGenerateOutcome c req state expiresAt

/-- cache.FetchOptions restricted to what Fetch reads: the caller
timeout and the previous result (its Value and State); none models a nil
LastResult, and mirrors the code path in which existing and state are
both absent. -/
structure FetchOptions where
  Timeout : Int
  LastResult : Option (IssuedCert × fetchState)

/-- The target expiry Fetch computes before entering the wait loop: the
soft-window lower bound plus the RandomStagger draw over the window
width, overridden by a pending forceExpireAfter when that is set
(non-zero) and earlier. -/
def initialExpiry (now stagger : Int) (existing : IssuedCert) (state : fetchState) : Int :=
  let minExpire := (calculateSoftExpiry now existing).1
  let expiresAt := minExpire + stagger
  if state.forceExpireAfter ≠ 0 ∧ state.forceExpireAfter < expiresAt then
    state.forceExpireAfter
  else expiresAt

/-- Fetch.  now is the time.Now() read near the top of the call; stagger
is the lib.RandomStagger(maxExpire.Sub(minExpire)) draw; events is the
trace of roots-change notifications delivered to this call's
rootUpdateCh.  A brand-new request (nil LastResult) goes straight to
generateNewLeaf with a fresh zero state; an already-expired target does
the same with the stored state; otherwise the call enters the wait loop
with the pre-seeded result. -/
def Fetch (c : ConnectCALeaf) (opts : FetchOptions) (req : ConnectCALeafRequest)
    (now stagger : Int) (events : List RootEvent) : FetchOutcome :=
  match opts.LastResult with
  | none => mkGenerateOutcome c req { authorityKeyID := "", forceExpireAfter := 0 } now
  | some (existing, state) =>
    if initialExpiry now stagger existing state ≤ now then
      mkGenerateOutcome c req state now
    else
      fetchLoop c req opts.Timeout existing now
        (initialExpiry now stagger existing state) state events

/-- The lock-protected per-entry lifecycle state: the subscriber set
(rootWatchSubscribers, as a duplicate-free list of channel identifiers),
whether the cancel handle is set (rootWatchCancel != nil), and whether a
rootWatcher goroutine is currently live. -/
structure EntryState where
  rootWatchSubscribers : List Nat
  rootWatchCancel : Bool
  rootWatcherAlive : Bool
deriving DecidableEq, Repr

/-- ensureRootWatcher: starts a background root watcher only when the
cancel handle is nil.  The source never resets rootWatchCancel to nil,
so this check is a proxy for a watcher having been started at some
point, not for one being live. -/
def ensureRootWatcher (s : EntryState) : EntryState :=
  if s.rootWatchCancel then s
  else { s with rootWatchCancel := true, rootWatcherAlive := true }

/-- fetchStart: under the lock, ensure a watcher and add the channel to
the subscriber set. -/
def fetchStart (ch : Nat) (s : EntryState) : EntryState :=
  let s1 := ensureRootWatcher s
  { s1 with rootWatchSubscribers :=
      if ch ∈ s1.rootWatchSubscribers then s1.rootWatchSubscribers
      else ch :: s1.rootWatchSubscribers }

/-- fetchDone: under the lock, remove the channel; when the set drained
and a cancel handle exists, call it (the watcher's ctx.Done fires and
the goroutine returns).  The source leaves rootWatchCancel set. -/
def fetchDone (ch : Nat) (s : EntryState) : EntryState :=
  let subs := s.rootWatchSubscribers.erase ch
  if subs.isEmpty ∧ s.rootWatchCancel then
    { rootWatchSubscribers := subs, rootWatchCancel := s.rootWatchCancel,
      rootWatcherAlive := false }
  else { s with rootWatchSubscribers := subs }

/-- The lifecycle events of one cache entry: a Fetch registering, a
Fetch deregistering, and the subscribe call inside a live rootWatcher
failing (the goroutine returns silently, leaving rootWatchCancel set). -/
inductive EntryEvent where
  | start (ch : Nat)
  | done (ch : Nat)
  | subscribeFail
deriving DecidableEq, Repr

/-- One lifecycle transition. -/
def entryStep (s : EntryState) : EntryEvent → EntryState
  | .start ch => fetchStart ch s
  | .done ch => fetchDone ch s
  | .subscribeFail =>
    if s.rootWatcherAlive then { s with rootWatcherAlive := false } else s

/-- Run a trace of lifecycle events. -/
def entryRun (s : EntryState) : List EntryEvent → EntryState
  | [] => s
  | e :: es => entryRun (entryStep s e) es

/-- The zero ConnectCALeaf lifecycle state: no subscribers, nil cancel
handle, no watcher. -/
def entryInit : EntryState :=
  { rootWatchSubscribers := [], rootWatchCancel := false, rootWatcherAlive := false }

/-- A non-blocking send into a one-buffered channel, modelled by the
number of queued elements: deliver when there is space, silently drop
(select default) when the buffer is full. -/
def nonBlockingSend (buf : Nat) : Nat :=
  if buf < 1 then buf + 1 else buf

/-- The hot-path filter of rootWatcher: oldRoots != nil &&
oldRoots.ActiveRootID == roots.ActiveRootID. -/
def sameActiveRoot (oldRoots : Option IndexedCARoots) (roots : IndexedCARoots) : Bool :=
  match oldRoots with
  | some o => decide (o.ActiveRootID = roots.ActiveRootID)
  | none => false

/-- One turn of the rootWatcher select loop on an update event.  The
watcher state is the last observed snapshot (oldRoots) and the buffer
fill of every subscriber channel.  An event carrying an error is
ignored; an unchanged active root is ignored; otherwise the watcher
fans out one non-blocking send per subscriber and records the
snapshot. -/
def rootWatcherStep (oldRoots : Option IndexedCARoots) (subs : List Nat)
    (e : Except String IndexedCARoots) : Option IndexedCARoots × List Nat :=
  match e with
  | .error _ => (oldRoots, subs)
  | .ok roots =>
    if sameActiveRoot oldRoots roots then (oldRoots, subs)
    else (some roots, subs.map nonBlockingSend)

/-- Concrete fixtures used by witnesses and counterexamples. -/
def rootR1 : CARoot := { ID := "r1", SigningKeyID := "keyR1", Active := true }

def rootR2 : CARoot := { ID := "r2", SigningKeyID := "keyR2", Active := true }

def rootsR1 : IndexedCARoots :=
  { ActiveRootID := "r1", TrustDomain := "td", Roots := [rootR1] }

def rootsR2 : IndexedCARoots :=
  { ActiveRootID := "r2", TrustDomain := "td", Roots := [rootR2] }

def rootsNoActive : IndexedCARoots :=
  { ActiveRootID := "r3", TrustDomain := "td",
    Roots := [{ ID := "r3", SigningKeyID := "k3", Active := false },
              { ID := "r4", SigningKeyID := "k4", Active := false }] }

def req0 : ConnectCALeafRequest :=
  { Token := "tok", Datacenter := "dc1", Service := "web", MinQueryIndex := 0 }

def stKey1 : fetchState := { authorityKeyID := "keyR1", forceExpireAfter := 0 }

def stForce : fetchState := { authorityKeyID := "keyR1", forceExpireAfter := 5 * Second }

/-- A 100-minute cert issued at instant 0, index 7. -/
def certA : IssuedCert :=
  { CertPEM := "certA", PrivateKeyPEM := "", ValidAfter := 0,
    ValidBefore := 6000 * Second, ModifyIndex := 7 }

/-- The cert the signing oracle of okEnvLeaf returns, index 42. -/
def certB : IssuedCert :=
  { CertPEM := "certB", PrivateKeyPEM := "", ValidAfter := 6000 * Second,
    ValidBefore := 12000 * Second, ModifyIndex := 42 }

/-- The S1 cert of the spec: ValidAfter 10:00, ValidBefore 13:00,
expressed in nanoseconds since midnight. -/
def certS1 : IssuedCert :=
  { CertPEM := "s1", PrivateKeyPEM := "", ValidAfter := 36000 * Second,
    ValidBefore := 46800 * Second, ModifyIndex := 1 }

/-- A cert whose lifetime is exactly ten minutes. -/
def certTen : IssuedCert :=
  { CertPEM := "ten", PrivateKeyPEM := "", ValidAfter := 0,
    ValidBefore := 10 * Minute, ModifyIndex := 2 }

/-- A cert whose lifetime is ten minutes minus one nanosecond. -/
def certTenMinusOne : IssuedCert :=
  { CertPEM := "ten-1", PrivateKeyPEM := "", ValidAfter := 0,
    ValidBefore := 10 * Minute - 1, ModifyIndex := 3 }

/-- An environment in which every external call fails: a run that ends
without an error therefore never invoked generateNewLeaf. -/
def errEnvLeaf : ConnectCALeaf :=
  { testSetCAChangeInitialJitter := 0
    rootsFromCache := .error "roots unavailable"
    generatePrivateKey := .error "keygen failed"
    createCSR := fun _ _ => .error "csr failed"
    signRPC := fun _ => .error "rpc failed"
    parseCertAuthorityKeyIDHex := fun _ => .error "parse failed" }

/-- An environment in which every external call succeeds; the active
root is r2 with key keyR2 and signing returns certB. -/
def okEnvLeaf : ConnectCALeaf :=
  { testSetCAChangeInitialJitter := 0
    rootsFromCache := .ok rootsR2
    generatePrivateKey := .ok ("pk", "pkPEM")
    createCSR := fun _ _ => .ok "csr"
    signRPC := fun _ => .ok certB
    parseCertAuthorityKeyIDHex := fun _ => .ok "keyR2" }

/-- An environment that succeeds up to and including the signing RPC and
then fails to parse the returned certificate. -/
def parseFailEnv : ConnectCALeaf :=
  { okEnvLeaf with parseCertAuthorityKeyIDHex := fun _ => .error "failed to parse PEM" }

/-- C4: for every (now, cert) with cert.ValidAfter < now <
cert.ValidBefore, calculateSoftExpiry now cert returns a pair (min, max)
satisfying min ≤ max, min ≥ now and max ≤ cert.ValidBefore. -/
theorem c4_soft_expiry_window_bounds (now : Int) (cert : IssuedCert)
    (h1 : cert.ValidAfter < now) (h2 : now < cert.ValidBefore) :
    (calculateSoftExpiry now cert).1 ≤ (calculateSoftExpiry now cert).2 ∧
    now ≤ (calculateSoftExpiry now cert).1 ∧
    (calculateSoftExpiry now cert).2 ≤ cert.ValidBefore := by
  simp only [calculateSoftExpiry, Minute, Second]
  split_ifs with hshort hhard hsoft <;>
    refine ⟨?_, ?_, ?_⟩ <;> simp only [] <;> omega

/-- Witness for C4 at the S1 scenario: now 10:30 inside the validity
window of certS1. -/
theorem c4_soft_expiry_window_bounds_witness :
    (calculateSoftExpiry (37800 * Second) certS1).1 ≤ (calculateSoftExpiry (37800 * Second) certS1).2 ∧
    37800 * Second ≤ (calculateSoftExpiry (37800 * Second) certS1).1 ∧
    (calculateSoftExpiry (37800 * Second) certS1).2 ≤ certS1.ValidBefore :=
  c4_soft_expiry_window_bounds (37800 * Second) certS1 (by decide) (by decide)

/-- C6: for every cert with lifetime at least ten minutes and every now
at or before the 60 percent mark, calculateSoftExpiry returns exactly
the pair (ValidAfter + 0.6 L, ValidAfter + 0.9 L), the products being
the truncated values the code computes; in particular for the S1 cert
(ValidAfter 10:00, ValidBefore 13:00) and now 10:30 it returns the
window from 11:48 to 12:42. -/
theorem c6_soft_expiry_exact_window :
    (∀ (now : Int) (cert : IssuedCert),
        10 * Minute ≤ cert.ValidBefore - cert.ValidAfter →
        now ≤ cert.ValidAfter + 6 * (cert.ValidBefore - cert.ValidAfter) / 10 →
        calculateSoftExpiry now cert =
          (cert.ValidAfter + 6 * (cert.ValidBefore - cert.ValidAfter) / 10,
           cert.ValidAfter + 9 * (cert.ValidBefore - cert.ValidAfter) / 10)) ∧
    calculateSoftExpiry (37800 * Second) certS1 = (42480 * Second, 45720 * Second) := by
  constructor
  · intro now cert hL hnow
    simp only [calculateSoftExpiry, Minute, Second] at *
    split_ifs with hshort hhard hsoft <;>
      simp only [Prod.mk.injEq] <;> constructor <;> omega
  · decide

/-- Witness for C6: the universally quantified part applied at the start
of the S1 cert's validity. -/
theorem c6_soft_expiry_exact_window_witness :
    calculateSoftExpiry (36000 * Second) certS1 = (42480 * Second, 45720 * Second) := by
  have h := c6_soft_expiry_exact_window.1 (36000 * Second) certS1 (by decide) (by decide)
  rw [h]
  decide

/-- C9: the boundary comparisons of calculateSoftExpiry are strict.  A
lifetime of exactly ten minutes passes the guard (shown at now =
ValidAfter, where the full soft window comes back); a lifetime of ten
minutes minus one nanosecond returns (now, now) for every now; and when
now equals hardRenewTime exactly the hard-renew comparison now.After is
false, so the result is the soft-window branch's pair (now,
hardRenewTime) — whose two components coincide at this boundary. -/
theorem c9_soft_expiry_boundaries :
    (∀ (now : Int) (cert : IssuedCert),
        cert.ValidBefore - cert.ValidAfter = 10 * Minute →
        now = cert.ValidAfter →
        calculateSoftExpiry now cert =
          (cert.ValidAfter + 6 * Minute, cert.ValidAfter + 9 * Minute)) ∧
    (∀ (now : Int) (cert : IssuedCert),
        cert.ValidBefore - cert.ValidAfter = 10 * Minute - 1 →
        calculateSoftExpiry now cert = (now, now)) ∧
    (∀ (now : Int) (cert : IssuedCert),
        10 * Minute ≤ cert.ValidBefore - cert.ValidAfter →
        now = cert.ValidAfter + 9 * (cert.ValidBefore - cert.ValidAfter) / 10 →
        calculateSoftExpiry now cert =
          (now, cert.ValidAfter + 9 * (cert.ValidBefore - cert.ValidAfter) / 10)) := by
  refine ⟨?_, ?_, ?_⟩ <;> intro now cert h1 <;>
    first
    | (intro h2
       simp only [calculateSoftExpiry, Minute, Second] at *
       split_ifs with hshort hhard hsoft <;>
         simp only [Prod.mk.injEq] <;> constructor <;> omega)
    | (simp only [calculateSoftExpiry, Minute, Second] at *
       split_ifs with hshort <;>
         simp only [Prod.mk.injEq] <;> constructor <;> omega)

/-- Witness for C9: all three parts applied to the ten-minute certs. -/
theorem c9_soft_expiry_boundaries_witness :
    calculateSoftExpiry 0 certTen = (6 * Minute, 9 * Minute) ∧
    calculateSoftExpiry 12345 certTenMinusOne = (12345, 12345) ∧
    calculateSoftExpiry (9 * Minute) certTen = (9 * Minute, 9 * Minute) := by
  refine ⟨?_, ?_, ?_⟩
  · have h := c9_soft_expiry_boundaries.1 0 certTen (by decide) (by decide)
    rw [h]
    decide
  · exact c9_soft_expiry_boundaries.2.1 12345 certTenMinusOne (by decide)
  · have h := c9_soft_expiry_boundaries.2.2 (9 * Minute) certTen (by decide) (by decide)
    rw [h]
    decide

/-- C1 (code divergence): the claim asserts a live roots-watcher exists
iff the subscriber set is non-empty, with an empty-to-non-empty
transition (also after a subscribe failure) starting a new watcher.  On
the source this fails: fetchDone calls rootWatchCancel() but leaves the
handle set, so the ensureRootWatcher nil-check never starts a second
watcher.  Both traces below end with a non-empty subscriber set and no
live watcher. -/
theorem c1_watcher_lifecycle_code_divergence :
    ((entryRun entryInit [.start 1, .done 1, .start 2]).rootWatchSubscribers = [2] ∧
     (entryRun entryInit [.start 1, .done 1, .start 2]).rootWatcherAlive = false) ∧
    ((entryRun entryInit [.start 1, .subscribeFail, .done 1, .start 2]).rootWatchSubscribers = [2] ∧
     (entryRun entryInit [.start 1, .subscribeFail, .done 1, .start 2]).rootWatcherAlive = false) := by
  decide

/-- C8: rootWatcher notifies only on a non-error update whose active
root ID differs from the last observed snapshot (or when no snapshot
was observed yet); when it notifies it performs one non-blocking send
per subscriber channel present, a send into a full one-buffered channel
is silently dropped (the buffer keeps its single element), and no send
ever overfills (blocks on) a channel. -/
theorem c8_watcher_fanout (oldRoots : Option IndexedCARoots) (subs : List Nat) :
    (∀ msg, rootWatcherStep oldRoots subs (.error msg) = (oldRoots, subs)) ∧
    (∀ roots, sameActiveRoot oldRoots roots = true →
        rootWatcherStep oldRoots subs (.ok roots) = (oldRoots, subs)) ∧
    (∀ roots, sameActiveRoot oldRoots roots = false →
        rootWatcherStep oldRoots subs (.ok roots) = (some roots, subs.map nonBlockingSend)) ∧
    nonBlockingSend 0 = 1 ∧
    nonBlockingSend 1 = 1 ∧
    (∀ b : Nat, b ≤ 1 → nonBlockingSend b ≤ 1) := by
  refine ⟨fun msg => rfl, fun roots h => ?_, fun roots h => ?_, rfl, rfl, ?_⟩
  · simp [rootWatcherStep, h]
  · simp [rootWatcherStep, h]
  · intro b hb
    unfold nonBlockingSend
    split <;> omega

/-- Witness for C8: a rotation from r1 to r2 fans out to an empty and a
full channel (the full one keeps one element); a repeat of r1 is
filtered out. -/
theorem c8_watcher_fanout_witness :
    rootWatcherStep (some rootsR1) [0, 1] (.ok rootsR2) = (some rootsR2, [1, 1]) ∧
    rootWatcherStep (some rootsR1) [0, 1] (.ok rootsR1) = (some rootsR1, [0, 1]) := by
  constructor
  · have h := (c8_watcher_fanout (some rootsR1) [0, 1]).2.2.1 rootsR2 (by decide)
    rw [h]
    decide
  · exact (c8_watcher_fanout (some rootsR1) [0, 1]).2.1 rootsR1 (by decide)

/-- Helper: a generateNewLeaf run that returns no error produced a new
cert and a state whose forceExpireAfter is cleared; a run that returns
an error leaves forceExpireAfter at its prior value exactly when the
signing RPC was not reached successfully, and cleared when it was (the
clear precedes certificate parsing). -/
theorem generateNewLeaf_spec (c : ConnectCALeaf) (req : ConnectCALeafRequest)
    (st : fetchState) :
    ((generateNewLeaf c req st).err = none →
        (generateNewLeaf c req st).finalState.forceExpireAfter = 0 ∧
        (generateNewLeaf c req st).result.Value.isSome = true) ∧
    ((generateNewLeaf c req st).err.isSome = true →
        (generateNewLeaf c req st).finalState.forceExpireAfter =
          (if reachedSignSuccess c req then 0 else st.forceExpireAfter)) := by
  unfold generateNewLeaf reachedSignSuccess
  cases hroots : c.rootsFromCache with
  | error e => simp [hroots]
  | ok roots =>
    by_cases htd : roots.TrustDomain = ""
    · simp [hroots, htd]
    · cases hpk : c.generatePrivateKey with
      | error e => simp [hroots, htd, hpk]
      | ok p =>
        obtain ⟨pk, pkPEM⟩ := p
        cases hcsr : c.createCSR (serviceIDFor roots req) pk with
        | error e => simp [hroots, htd, hpk, hcsr]
        | ok csr =>
          cases hsig : c.signRPC { Token := req.Token, Datacenter := req.Datacenter, CSR := csr } with
          | error e => simp [hroots, htd, hpk, hcsr, hsig]
          | ok reply0 =>
            cases hparse : c.parseCertAuthorityKeyIDHex reply0.CertPEM with
            | error e => simp [hroots, htd, hpk, hcsr, hsig, hparse]
            | ok kid => simp [hroots, htd, hpk, hcsr, hsig, hparse]

/-- C3 counterexample: in a run whose only failure is certificate
parsing, generateNewLeaf returns an error and yet the state's
forceExpireAfter, previously 5 seconds, is already cleared to zero —
the claim's "still holds its prior value" fails for the parsing step. -/
theorem c3_parse_error_clears_counterexample :
    (generateNewLeaf parseFailEnv req0 stForce).err = some "failed to parse PEM" ∧
    stForce.forceExpireAfter = 5 * Second ∧
    (generateNewLeaf parseFailEnv req0 stForce).finalState.forceExpireAfter = 0 := by
  decide

/-- C3 amended: forceExpireAfter survives a generateNewLeaf error
raised at the roots lookup, the bootstrap check, key generation, CSR
construction or the signing RPC; the clear happens right after the RPC
succeeds and before parsing, so an error at the certificate-parsing
step returns with the field already cleared. -/
theorem c3_force_expire_preservation_amended (c : ConnectCALeaf)
    (req : ConnectCALeafRequest) (st : fetchState)
    (herr : (generateNewLeaf c req st).err.isSome = true) :
    (generateNewLeaf c req st).finalState.forceExpireAfter =
      (if reachedSignSuccess c req then 0 else st.forceExpireAfter) :=
  (generateNewLeaf_spec c req st).2 herr

/-- Witness for C3 amended: the all-failing environment errors at the
roots lookup and leaves forceExpireAfter at 5 seconds. -/
theorem c3_force_expire_preservation_witness :
    (generateNewLeaf errEnvLeaf req0 stForce).finalState.forceExpireAfter =
      (if reachedSignSuccess errEnvLeaf req0 then 0 else stForce.forceExpireAfter) :=
  c3_force_expire_preservation_amended errEnvLeaf req0 stForce (by decide)

/-- C2 counterexample: a Fetch entered at instant 100 s with a 10 s
caller timeout receives a same-signer roots notification at 105 s; the
loop re-iterates, the re-created timeout timer fires at 115 s, and the
call returns the pre-seeded result (the prior cert certA) with no error
at 115 s — not at 110 s, i.e. not when opts.Timeout elapsed since the
start of the call.  The environment fails every external call, so a nil
error shows generateNewLeaf was never reached. -/
theorem c2_timeout_reset_counterexample :
    (Fetch errEnvLeaf { Timeout := 10 * Second, LastResult := some (certA, stKey1) } req0
        (100 * Second) 0
        [{ time := 105 * Second, rootsResult := .ok rootsR1, delay := 0 }]).err = none ∧
    (Fetch errEnvLeaf { Timeout := 10 * Second, LastResult := some (certA, stKey1) } req0
        (100 * Second) 0
        [{ time := 105 * Second, rootsResult := .ok rootsR1, delay := 0 }]).result.Value
      = some certA ∧
    (Fetch errEnvLeaf { Timeout := 10 * Second, LastResult := some (certA, stKey1) } req0
        (100 * Second) 0
        [{ time := 105 * Second, rootsResult := .ok rootsR1, delay := 0 }]).retTime
      = 115 * Second ∧
    (Fetch errEnvLeaf { Timeout := 10 * Second, LastResult := some (certA, stKey1) } req0
        (100 * Second) 0
        [{ time := 105 * Second, rootsResult := .ok rootsR1, delay := 0 }]).retTime
      ≠ 100 * Second + 10 * Second := by
  decide

/-- C2 amended: the caller-timeout branch fires when opts.Timeout has
elapsed since the start of the current loop iteration — the timer is
re-created by time.After on every iteration, so the deadline is pushed
back after each roots-change notification — and on that branch Fetch
returns the pre-seeded result (prior value, index, state) with a nil
error.  Stated for an iteration with no pending notification and for an
iteration that consumes one same-signer notification at instant t. -/
theorem c2_timeout_per_iteration (c : ConnectCALeaf) (req : ConnectCALeafRequest)
    (timeout : Int) (existing : IssuedCert) (iterStart expiresAt : Int)
    (st : fetchState) (t d : Int) (roots : IndexedCARoots)
    (h0 : iterStart + timeout ≤ expiresAt)
    (h1 : t < iterStart + timeout) (h2 : t < expiresAt)
    (h3 : activeRootHasKey roots st.authorityKeyID = true)
    (h4 : t + timeout ≤ expiresAt) :
    fetchLoop c req timeout existing iterStart expiresAt st [] =
      { result := { Value := some existing, State := some st, Index := existing.ModifyIndex },
        err := none, retTime := iterStart + timeout, finalState := st } ∧
    fetchLoop c req timeout existing iterStart expiresAt st
        [{ time := t, rootsResult := .ok roots, delay := d }] =
      { result := { Value := some existing, State := some st, Index := existing.ModifyIndex },
        err := none, retTime := t + timeout, finalState := st } := by
  constructor
  · simp [fetchLoop, h0]
  · simp [fetchLoop, h1, h2, h3, h4]

/-- Witness for C2 amended at the counterexample's concrete numbers. -/
theorem c2_timeout_per_iteration_witness :
    fetchLoop errEnvLeaf req0 (10 * Second) certA (100 * Second) (3600 * Second) stKey1 [] =
      { result := { Value := some certA, State := some stKey1, Index := certA.ModifyIndex },
        err := none, retTime := 100 * Second + 10 * Second, finalState := stKey1 } ∧
    fetchLoop errEnvLeaf req0 (10 * Second) certA (100 * Second) (3600 * Second) stKey1
        [{ time := 105 * Second, rootsResult := .ok rootsR1, delay := 0 }] =
      { result := { Value := some certA, State := some stKey1, Index := certA.ModifyIndex },
        err := none, retTime := 105 * Second + 10 * Second, finalState := stKey1 } :=
  c2_timeout_per_iteration errEnvLeaf req0 (10 * Second) certA (100 * Second)
    (3600 * Second) stKey1 (105 * Second) 0 rootsR1
    (by decide) (by decide) (by decide) (by decide) (by decide)

/-- C5: when a roots-change notification wakes the loop and the active
root's signing key differs from state.authorityKeyID, Fetch sets
forceExpireAfter to the notification instant plus the drawn delay
(bounded by effectiveJitter, the test override or the 20 s default),
lowers the target expiry to that instant when it is earlier, and
continues the loop; consequently when the call later returns without
error it either carries a freshly generated cert (whose state has
forceExpireAfter cleared) or the pre-seeded cert with a state whose
forceExpireAfter is non-zero and at most the notification instant plus
the jitter bound. -/
theorem c5_root_change_schedules_renewal (c : ConnectCALeaf) (req : ConnectCALeafRequest)
    (timeout : Int) (existing : IssuedCert) (iterStart expiresAt : Int)
    (st : fetchState) (t d : Int) (roots : IndexedCARoots)
    (h1 : t < iterStart + timeout) (h2 : t < expiresAt)
    (h3 : activeRootHasKey roots st.authorityKeyID = false)
    (h4 : 0 ≤ d) (h5 : d ≤ effectiveJitter c) (h6 : 0 < t) :
    fetchLoop c req timeout existing iterStart expiresAt st
        [{ time := t, rootsResult := .ok roots, delay := d }] =
      fetchLoop c req timeout existing t (if t + d < expiresAt then t + d else expiresAt)
        { st with forceExpireAfter := t + d } [] ∧
    ∀ o, o = fetchLoop c req timeout existing iterStart expiresAt st
        [{ time := t, rootsResult := .ok roots, delay := d }] →
      o.err = none →
      (o.finalState.forceExpireAfter = 0 ∧ o.result.Value.isSome = true) ∨
      (o.result.Value = some existing ∧ o.result.State = some o.finalState ∧
        o.finalState.forceExpireAfter ≠ 0 ∧
        o.finalState.forceExpireAfter ≤ t + effectiveJitter c) := by
  have hstep : fetchLoop c req timeout existing iterStart expiresAt st
      [{ time := t, rootsResult := .ok roots, delay := d }] =
      fetchLoop c req timeout existing t (if t + d < expiresAt then t + d else expiresAt)
        { st with forceExpireAfter := t + d } [] := by
    simp [fetchLoop, h1, h2, h3]
  refine ⟨hstep, ?_⟩
  intro o ho herr
  rw [hstep] at ho
  by_cases hto : t + timeout ≤ (if t + d < expiresAt then t + d else expiresAt)
  · subst ho
    simp only [fetchLoop, if_pos hto] at herr ⊢
    right
    have hne : t + d ≠ 0 := by omega
    have hle : t + d ≤ t + effectiveJitter c := by omega
    refine ⟨?_, ?_, ?_, ?_⟩
    · trivial
    · trivial
    · simpa using hne
    · simpa using hle
  · subst ho
    simp only [fetchLoop, if_neg hto, mkGenerateOutcome] at herr ⊢
    left
    exact (generateNewLeaf_spec c req { st with forceExpireAfter := t + d }).1 herr

/-- Witness for C5: a rotation to rootsR2 at 105 s with a 15 s draw and
a 10 s caller timeout; the call times out at 115 s carrying
forceExpireAfter 120 s. -/
theorem c5_root_change_schedules_renewal_witness :
    ((fetchLoop errEnvLeaf req0 (10 * Second) certA (100 * Second) (3600 * Second) stKey1
          [{ time := 105 * Second, rootsResult := .ok rootsR2, delay := 15 * Second }]).finalState.forceExpireAfter = 0 ∧
      (fetchLoop errEnvLeaf req0 (10 * Second) certA (100 * Second) (3600 * Second) stKey1
          [{ time := 105 * Second, rootsResult := .ok rootsR2, delay := 15 * Second }]).result.Value.isSome = true) ∨
    ((fetchLoop errEnvLeaf req0 (10 * Second) certA (100 * Second) (3600 * Second) stKey1
          [{ time := 105 * Second, rootsResult := .ok rootsR2, delay := 15 * Second }]).result.Value = some certA ∧
      (fetchLoop errEnvLeaf req0 (10 * Second) certA (100 * Second) (3600 * Second) stKey1
          [{ time := 105 * Second, rootsResult := .ok rootsR2, delay := 15 * Second }]).result.State =
        some (fetchLoop errEnvLeaf req0 (10 * Second) certA (100 * Second) (3600 * Second) stKey1
          [{ time := 105 * Second, rootsResult := .ok rootsR2, delay := 15 * Second }]).finalState ∧
      (fetchLoop errEnvLeaf req0 (10 * Second) certA (100 * Second) (3600 * Second) stKey1
          [{ time := 105 * Second, rootsResult := .ok rootsR2, delay := 15 * Second }]).finalState.forceExpireAfter ≠ 0 ∧
      (fetchLoop errEnvLeaf req0 (10 * Second) certA (100 * Second) (3600 * Second) stKey1
          [{ time := 105 * Second, rootsResult := .ok rootsR2, delay := 15 * Second }]).finalState.forceExpireAfter ≤
        105 * Second + effectiveJitter errEnvLeaf) :=
  (c5_root_change_schedules_renewal errEnvLeaf req0 (10 * Second) certA (100 * Second)
      (3600 * Second) stKey1 (105 * Second) (15 * Second) rootsR2
      (by decide) (by decide) (by decide) (by decide) (by decide) (by decide)).2
    _ rfl (by decide)

/-- C7: a roots-cache read failing on a roots-change notification inside
the wait loop makes Fetch return that error together with the pre-seeded
result: the prior cert as value, its ModifyIndex as index and the prior
state. -/
theorem c7_roots_error_preseeded (c : ConnectCALeaf) (opts : FetchOptions)
    (req : ConnectCALeafRequest) (now stagger : Int) (existing : IssuedCert)
    (st : fetchState) (t d : Int) (msg : String) (rest : List RootEvent)
    (hlr : opts.LastResult = some (existing, st))
    (hwait : now < initialExpiry now stagger existing st)
    (h1 : t < now + opts.Timeout)
    (h2 : t < initialExpiry now stagger existing st) :
    Fetch c opts req now stagger ({ time := t, rootsResult := .error msg, delay := d } :: rest) =
      { result := { Value := some existing, State := some st, Index := existing.ModifyIndex },
        err := some msg, retTime := t, finalState := st } := by
  simp only [Fetch, hlr]
  rw [if_neg (by omega : ¬ initialExpiry now stagger existing st ≤ now)]
  simp [fetchLoop, h1, h2]

/-- Witness for C7: the roots read fails at 105 s inside a call entered
at 100 s holding certA. -/
theorem c7_roots_error_preseeded_witness :
    Fetch errEnvLeaf { Timeout := 10 * Second, LastResult := some (certA, stKey1) } req0
        (100 * Second) 0
        [{ time := 105 * Second, rootsResult := .error "roots down", delay := 0 }] =
      { result := { Value := some certA, State := some stKey1, Index := certA.ModifyIndex },
        err := some "roots down", retTime := 105 * Second, finalState := stKey1 } :=
  c7_roots_error_preseeded errEnvLeaf
    { Timeout := 10 * Second, LastResult := some (certA, stKey1) } req0
    (100 * Second) 0 certA stKey1 (105 * Second) 0 "roots down" []
    rfl (by decide) (by decide) (by decide)

/-- C10: a roots snapshot in which no root is marked Active makes
activeRootHasKey return false for every queried key, so a Fetch woken
with such a snapshot takes the signer-changed branch: it schedules a
forced expiry (forceExpireAfter set, target lowered) and continues the
loop instead of continuing to wait unchanged. -/
theorem c10_no_active_root (roots : IndexedCARoots) (key : String)
    (hno : ∀ ca ∈ roots.Roots, ca.Active = false) :
    activeRootHasKey roots key = false ∧
    ∀ (c : ConnectCALeaf) (req : ConnectCALeafRequest) (timeout : Int)
      (existing : IssuedCert) (iterStart expiresAt : Int) (st : fetchState)
      (t d : Int) (rest : List RootEvent),
      st.authorityKeyID = key →
      t < iterStart + timeout → t < expiresAt →
      fetchLoop c req timeout existing iterStart expiresAt st
          ({ time := t, rootsResult := .ok roots, delay := d } :: rest) =
        fetchLoop c req timeout existing t (if t + d < expiresAt then t + d else expiresAt)
          { st with forceExpireAfter := t + d } rest := by
  have hscan : ∀ l : List CARoot, (∀ ca ∈ l, ca.Active = false) →
      activeRootScan key l = false := by
    intro l
    induction l with
    | nil => intro _; rfl
    | cons ca tail ih =>
      intro h
      have hca : ca.Active = false := h ca (by simp)
      simp only [activeRootScan, hca]
      simp only [Bool.false_eq_true, if_false]
      exact ih (fun x hx => h x (by simp [hx]))
  have hkey : activeRootHasKey roots key = false := hscan roots.Roots hno
  refine ⟨hkey, ?_⟩
  intro c req timeout existing iterStart expiresAt st t d rest hst h1 h2
  have hkey2 : activeRootHasKey roots st.authorityKeyID = false := by
    rw [hst]
    exact hkey
  simp [fetchLoop, h1, h2, hkey2]

/-- Witness for C10 on a snapshot whose two roots are both inactive. -/
theorem c10_no_active_root_witness :
    activeRootHasKey rootsNoActive "keyR1" = false :=
  (c10_no_active_root rootsNoActive "keyR1" (by decide)).1
